import Mathlib

/-!
Verification of the route53_dd dynamic-DNS updater.

This file shallowly embeds the program in `src/main.rs` and
`src/credential_provider.rs`. External effects (the AWS Route53 client, the
reqwest HTTP client used for address discovery, the tokio interval timer) are
modelled by explicit oracles: an oracle records the result each external call
would return during one reconciliation cycle, and the loop model consumes an
explicit list of `select!`-branch events. Machine strings are Lean `String`s;
Rust `u64`/`i64` values are `Nat`/`Int`; the one arithmetic operation in the
program that can overflow a `u64`, the period computation
`60 * update_frequency_minutes`, is modelled with the explicit `% 2 ^ 64`
wrap of release-profile semantics.
-/

/-- Errors produced by a reconciliation cycle. `anyhowMsg` is an
`anyhow::anyhow!` message error (line 167 of main.rs); `external` stands for an
error value returned by an external call (AWS SDK or reqwest), carrying an
uninterpreted tag; `addrParse` is the `AddrParseError` raised by
`str::parse::<IpAddr>` via `?` (lines 180 and 204). -/
inductive Err where
  | anyhowMsg (msg : String)
  | external (tag : String)
  | addrParse (input : String)
deriving DecidableEq, Repr

/-- Record type of a change, `aws_sdk_route53::types::RrType` restricted to the
two variants the program constructs (lines 187 and 212 of main.rs). -/
inductive RrType where
  | A
  | AAAA
deriving DecidableEq, Repr

/-- `aws_sdk_route53::types::ChangeAction` restricted to the variant the
program constructs (lines 183 and 208 of main.rs). -/
inductive ChangeAction where
  | Upsert
deriving DecidableEq, Repr

/-- The fields of `aws_sdk_route53::types::ResourceRecordSet` that the program
sets (lines 185-192 and 210-217 of main.rs): name, type, TTL and the single
resource record value. -/
structure ResourceRecordSet where
  name : String
  rtype : RrType
  ttl : Int
  value : String
deriving DecidableEq, Repr

/-- One element of the change batch (`aws_sdk_route53::types::Change`,
lines 182-194 of main.rs). -/
structure Change where
  action : ChangeAction
  resource_record_set : ResourceRecordSet
deriving DecidableEq, Repr

/-- The observable content of one `change_resource_record_sets` submission
(lines 224-233 of main.rs): the hosted zone id and the change batch. -/
structure UpsertCall where
  hosted_zone_id : String
  changes : List Change
deriving DecidableEq, Repr

/-- `std::time::SystemTime`, modelled by its Unix-epoch components as rendered
by its Debug implementation on Unix. -/
structure SystemTimeM where
  tv_sec : Nat
  tv_nsec : Nat
deriving DecidableEq, Repr

/-- `AwsCredentials` from src/credential_provider.rs, lines 12-18. -/
structure AwsCredentials where
  access_key_id : String
  secret_access_key : String
  session_token : Option String
  expires_after : Option SystemTimeM
deriving DecidableEq, Repr

/-- `HostedZoneConfig` from src/main.rs, lines 61-71. -/
structure HostedZoneConfig where
  update_frequency_minutes : Nat
  zone_name : String
  record_name : String
  ipv4 : Bool
  ipv6 : Bool
  region : String
  aws_credentials : AwsCredentials
  ttl_seconds : Int
deriving DecidableEq, Repr

/-- `Args` from src/main.rs, lines 24-59: the parsed command line. A value of
this type exists only after clap has parsed the command line; clap applies no
constraint to `update_frequency_minutes` beyond the `u64` range, so the zero
value is representable here. -/
structure Args where
  daemon : Bool
  update_frequency_minutes : Nat
  zone_name : String
  record_name : String
  ipv4 : Bool
  ipv6 : Bool
  region : String
  aws_access_key_id : String
  aws_secret_access_key : String
  aws_session_token : Option String
  ttl_seconds : Int
deriving DecidableEq, Repr

/-- The construction of the `HostedZoneConfig` from the parsed arguments
performed by `main` (src/main.rs lines 92-106). It is a total function: `main`
performs no validation between argument parsing and calling
`daemon_update_zone`. -/
def mkHostedZoneConfig (a : Args) : HostedZoneConfig :=
  { update_frequency_minutes := a.update_frequency_minutes
    zone_name := a.zone_name
    record_name := a.record_name
    ipv4 := a.ipv4
    ipv6 := a.ipv6
    region := a.region
    aws_credentials :=
      { access_key_id := a.aws_access_key_id
        secret_access_key := a.aws_secret_access_key
        session_token := a.aws_session_token
        expires_after := none }
    ttl_seconds := a.ttl_seconds }

/-- `std::net::IpAddr`: either four IPv4 octets or eight 16-bit IPv6 groups. -/
inductive IpAddr where
  | v4 (a b c d : Nat)
  | v6 (segs : List Nat)
deriving DecidableEq, Repr

/-- Split a character list on a separator character. The empty list yields one
empty piece, matching the behaviour of string splitting in Rust's address
parser (an empty or trailing-separator piece is an invalid group). -/
def splitList (sep : Char) : List Char → List (List Char)
  | [] => [[]]
  | c :: rest =>
    let r := splitList sep rest
    if c = sep then [] :: r
    else
      match r with
      | h :: t => (c :: h) :: t
      | [] => [[c]]

/-- Numeric value of a decimal digit string. -/
def decVal (cs : List Char) : Nat :=
  cs.foldl (fun acc c => acc * 10 + (c.toNat - 48)) 0

/-- One dotted-decimal IPv4 octet, per `Ipv4Addr::from_str`: one to three
decimal digits, no leading zero, value at most 255. -/
def parseOctet (cs : List Char) : Option Nat :=
  if cs.isEmpty then none
  else if 3 < cs.length then none
  else if 1 < cs.length && cs.head? = some '0' then none
  else if cs.all Char.isDigit then
    let v := decVal cs
    if v ≤ 255 then some v else none
  else none

/-- `Ipv4Addr::from_str` on a character list: exactly four valid octets
separated by dots. -/
def parseIpv4Chars (cs : List Char) : Option (Nat × Nat × Nat × Nat) :=
  match splitList '.' cs with
  | [p1, p2, p3, p4] =>
    match parseOctet p1, parseOctet p2, parseOctet p3, parseOctet p4 with
    | some a, some b, some c, some d => some (a, b, c, d)
    | _, _, _, _ => none
  | _ => none

/-- Hex digit test for IPv6 groups. -/
def isHexDigitChar (c : Char) : Bool :=
  c.isDigit || ('a' ≤ c && c ≤ 'f') || ('A' ≤ c && c ≤ 'F')

/-- Value of a hex digit. -/
def hexDigitVal (c : Char) : Nat :=
  if c.isDigit then c.toNat - 48
  else if 'a' ≤ c && c ≤ 'f' then c.toNat - 87
  else c.toNat - 55

/-- One IPv6 group: one to four hex digits. -/
def parseHexGroup (cs : List Char) : Option Nat :=
  if cs.isEmpty then none
  else if 4 < cs.length then none
  else if cs.all isHexDigitChar then
    some (cs.foldl (fun acc c => acc * 16 + hexDigitVal c) 0)
  else none

/-- The colon-separated pieces of one side of an IPv6 address. When `allowV4`
is set the final piece may be a dotted-decimal IPv4 address contributing two
groups (the trailing-IPv4 form such as `::ffff:1.2.3.4`). -/
def parsePieces (allowV4 : Bool) : List (List Char) → Option (List Nat)
  | [] => some []
  | [p] =>
    if allowV4 && p.contains '.' then
      match parseIpv4Chars p with
      | some (a, b, c, d) => some [a * 256 + b, c * 256 + d]
      | none => none
    else (parseHexGroup p).map (fun g => [g])
  | p :: rest =>
    match parseHexGroup p, parsePieces allowV4 rest with
    | some g, some gs => some (g :: gs)
    | _, _ => none

/-- The groups of one side of an IPv6 address; an empty side has no groups. -/
def parseGroups (allowV4 : Bool) (cs : List Char) : Option (List Nat) :=
  if cs.isEmpty then some [] else parsePieces allowV4 (splitList ':' cs)

/-- Locate the first `::` in a character list, returning the characters before
and after it. -/
def breakDoubleColon : List Char → Option (List Char × List Char)
  | [] => none
  | ':' :: ':' :: rest => some ([], rest)
  | c :: rest => (breakDoubleColon rest).map (fun p => (c :: p.1, p.2))

/-- `Ipv6Addr::from_str` on a character list: either eight groups with no
`::`, or a `::` compressing at least one zero group, with a trailing
dotted-decimal IPv4 part allowed in the final position. -/
def parseIpv6Chars (cs : List Char) : Option (List Nat) :=
  match breakDoubleColon cs with
  | none =>
    match parseGroups true cs with
    | some gs => if gs.length = 8 then some gs else none
    | none => none
  | some (l, r) =>
    match parseGroups false l, parseGroups true r with
    | some gl, some gr =>
      if gl.length + gr.length ≤ 7 then
        some (gl ++ List.replicate (8 - gl.length - gr.length) 0 ++ gr)
      else none
    | _, _ => none

/-- `IpAddr::from_str` (used at lines 180 and 204 of main.rs via
`str::parse::<IpAddr>`): an IPv4 address, or failing that an IPv6 address.
Both families are accepted; no family is selected by the caller. -/
def parseIpAddr (s : String) : Option IpAddr :=
  match parseIpv4Chars s.toList with
  | some (a, b, c, d) => some (.v4 a b c d)
  | none =>
    match parseIpv6Chars s.toList with
    | some segs => some (.v6 segs)
    | none => none

/-- Lowercase hexadecimal rendering of an IPv6 group. -/
def hexStr (n : Nat) : String :=
  String.mk (Nat.toDigits 16 n)

/-- Join group strings with colons. -/
def joinColon : List String → String
  | [] => ""
  | [g] => g
  | g :: rest => g ++ ":" ++ joinColon rest

/-- First longest run of zero groups: scans with the current run and the best
run so far, returning (start, length) of the first longest run. -/
def longestZeroRunAux : List Nat → Nat → Nat × Nat → Nat × Nat → Nat × Nat
  | [], _, best, cur => if best.2 < cur.2 then cur else best
  | 0 :: rest, i, best, cur =>
    longestZeroRunAux rest (i + 1) best (if cur.2 = 0 then (i, 1) else (cur.1, cur.2 + 1))
  | _ :: rest, i, best, cur =>
    longestZeroRunAux rest (i + 1) (if best.2 < cur.2 then cur else best) (0, 0)

/-- First longest run of zero groups in a segment list. -/
def longestZeroRun (segs : List Nat) : Nat × Nat :=
  longestZeroRunAux segs 0 (0, 0) (0, 0)

/-- `Display for Ipv6Addr`: the IPv4-mapped special case, else lowercase hex
groups with the first longest run of two or more zero groups compressed to
`::`. -/
def ipv6ToString (segs : List Nat) : String :=
  match segs with
  | [0, 0, 0, 0, 0, 65535, g, h] =>
    "::ffff:" ++ toString (g / 256) ++ "." ++ toString (g % 256) ++ "." ++
      toString (h / 256) ++ "." ++ toString (h % 256)
  | _ =>
    let run := longestZeroRun segs
    if 2 ≤ run.2 then
      joinColon ((segs.take run.1).map hexStr) ++ "::" ++
        joinColon ((segs.drop (run.1 + run.2)).map hexStr)
    else joinColon (segs.map hexStr)

/-- `Display for IpAddr` (`to_string()` at lines 190 and 215 of main.rs):
dotted decimal for IPv4, the compressed hex form for IPv6. -/
def ipAddrToString : IpAddr → String
  | .v4 a b c d =>
    toString a ++ "." ++ toString b ++ "." ++ toString c ++ "." ++ toString d
  | .v6 segs => ipv6ToString segs

/-- The results the external services would return during one reconciliation
cycle of `update_hosted_zone` (src/main.rs lines 149-238). `list_hosted_zones`
is the outcome of `list_hosted_zones_by_name(...).send()` (lines 158-162),
reduced to the list of hosted zone ids in provider order. `ipv4_body` /
`ipv6_body` collapse the reqwest chain for one family — client build,
`send()`, `error_for_status()`, `text()` (lines 174-178 and 199-204) — into
the response body text, or the first error of the chain. `upsert` is the
outcome of `change_resource_record_sets(...).send()` (lines 224-233). -/
structure CycleOracle where
  list_hosted_zones : Except Err (List String)
  ipv4_body : Except Err String
  ipv6_body : Except Err String
  upsert : Except Err Unit
deriving Repr

/-- Address discovery for one family (src/main.rs lines 177-180 and 203-204):
propagate any network error, then parse the response body with
`str::parse::<IpAddr>`, turning a parse failure into an error. -/
def resolve_address (body : Except Err String) : Except Err IpAddr :=
  match body with
  | .error e => .error e
  | .ok s =>
    match parseIpAddr s with
    | some ip => .ok ip
    | none => .error (.addrParse s)

/-- Hosted-zone selection (src/main.rs lines 163-168): `.find(|_| true)` takes
the first element of the provider's match list, and an empty list becomes the
`anyhow!("No hosted zone found.")` error. -/
def find_hosted_zone : List String → Except Err String
  | [] => .error (.anyhowMsg "No hosted zone found.")
  | z :: _ => .ok z

/-- One upsert change as built at lines 181-195 / 206-220 of main.rs: action
Upsert, record name `record_name + "." + zone_name`, the given type, the
zone's TTL, and the address rendered by `to_string()`. -/
def upsert_change (zone : HostedZoneConfig) (t : RrType) (value : String) : Change :=
  { action := .Upsert
    resource_record_set :=
      { name := zone.record_name ++ "." ++ zone.zone_name
        rtype := t
        ttl := zone.ttl_seconds
        value := value } }

/-- The change-batch construction of `update_hosted_zone` (src/main.rs lines
171-221): for the IPv4 flag then the IPv6 flag, resolve the family's address
and append an upsert change; the first resolution error aborts (the `?`
operators inside each `if` block return from the whole function). -/
def build_record_changes (zone : HostedZoneConfig) (o : CycleOracle) :
    Except Err (List Change) :=
  match (if zone.ipv4 then
          (resolve_address o.ipv4_body).map
            (fun ip => [upsert_change zone RrType.A (ipAddrToString ip)])
        else .ok []) with
  | .error e => .error e
  | .ok c4 =>
    match (if zone.ipv6 then
            (resolve_address o.ipv6_body).map
              (fun ip => [upsert_change zone RrType.AAAA (ipAddrToString ip)])
          else .ok []) with
    | .error e => .error e
    | .ok c6 => .ok (c4 ++ c6)

/-- `update_hosted_zone` (src/main.rs lines 149-238), as a function of the
zone configuration and the cycle's oracle. The second component records the
`change_resource_record_sets` submission the provider received, if any: `none`
means no upsert request was sent this cycle. -/
def update_hosted_zone (zone : HostedZoneConfig) (o : CycleOracle) :
    Except Err Unit × Option UpsertCall :=
  match o.list_hosted_zones with
  | .error e => (.error e, none)
  | .ok zones =>
    match find_hosted_zone zones with
    | .error e => (.error e, none)
    | .ok hosted_zone =>
      match build_record_changes zone o with
      | .error e => (.error e, none)
      | .ok record_changes =>
        if record_changes.isEmpty then (.ok (), none)
        else
          let call : UpsertCall :=
            { hosted_zone_id := hosted_zone, changes := record_changes }
          match o.upsert with
          | .error e => (.error e, some call)
          | .ok _ => (.ok (), some call)

/-- Which branch of the `select!` at lines 133-139 of main.rs completes first
in one iteration of the daemon loop: the interval tick, or the cancellation
token. -/
inductive LoopEvent where
  | tick
  | cancelled
deriving DecidableEq, Repr

instance {ε α : Type} [DecidableEq ε] [DecidableEq α] : DecidableEq (Except ε α) := fun
  | .error e, .error f =>
    if h : e = f then .isTrue (congrArg Except.error h)
    else .isFalse (fun hh => h (Except.error.inj hh))
  | .error _, .ok _ => .isFalse (fun hh => Except.noConfusion hh)
  | .ok _, .error _ => .isFalse (fun hh => Except.noConfusion hh)
  | .ok a, .ok b =>
    if h : a = b then .isTrue (congrArg Except.ok h)
    else .isFalse (fun hh => h (Except.ok.inj hh))

/-- How a run of `daemon_update_zone` ends. `finished r` is a normal return
with result `r`; `panicked` is a process abort (the tokio interval constructor
asserts a non-zero period); `running` means the supplied event list was
exhausted with the daemon loop still going (the loop itself never returns
except through cancellation). -/
inductive RunResult where
  | finished (r : Except Err Unit)
  | panicked (msg : String)
  | running
deriving DecidableEq, Repr

/-- The daemon loop of src/main.rs lines 132-146, consuming the list of
`select!` outcomes. A `cancelled` event breaks the loop with `Ok(())`; a
`tick` event runs one cycle via `update_hosted_zone` with that cycle's oracle,
logs the result either way, and continues. The second component is the log of
cycle results, so the number of cycles actually run is observable. -/
def daemonLoop (zone : HostedZoneConfig) (oracles : Nat → CycleOracle) :
    List LoopEvent → Nat → RunResult × List (Except Err Unit)
  | [], _ => (.running, [])
  | .cancelled :: _, _ => (.finished (.ok ()), [])
  | .tick :: rest, n =>
    let r := (update_hosted_zone zone (oracles n)).1
    let rec_ := daemonLoop zone oracles rest (n + 1)
    (rec_.1, r :: rec_.2)

/-- `daemon_update_zone` (src/main.rs lines 119-147). In one-shot mode
(`daemon = false`) one cycle runs and its error, if any, is returned as the
function's result (lines 124-130). In daemon mode the interval timer is
constructed with period `60 * update_frequency_minutes` seconds (line 131).
The multiplication is `u64` arithmetic: under release semantics it wraps
modulo `2 ^ 64`, which the model follows, so the effective period is
`(60 * update_frequency_minutes) % 2 ^ 64`; tokio's `time::interval` panics
when that period is zero (in particular at frequency 0, and at wrap-to-zero
values such as `2 ^ 62`), which the model makes explicit, and otherwise the
loop of lines 132-146 runs. (In a debug build the overflowing multiplication
itself panics for any `60 * update_frequency_minutes ≥ 2 ^ 64`; theorems
below that concern non-panicking runs assume the product is below `2 ^ 64`,
where both build profiles agree with the model.) -/
def daemon_update_zone (zone : HostedZoneConfig) (daemon : Bool)
    (events : List LoopEvent) (oracles : Nat → CycleOracle) :
    RunResult × List (Except Err Unit) :=
  if !daemon then
    match (update_hosted_zone zone (oracles 0)).1 with
    | .error e => (.finished (.error e), [.error e])
    | .ok _ => (.finished (.ok ()), [.ok ()])
  else if (60 * zone.update_frequency_minutes) % 2 ^ 64 = 0 then
    (.panicked "interval period must be non-zero", [])
  else daemonLoop zone oracles events 0

/-- Number of `tick` events before the first `cancelled` event: the number of
cycles a daemon run with those events executes. -/
def ticksBeforeCancel : List LoopEvent → Nat
  | [] => 0
  | .cancelled :: _ => 0
  | .tick :: rest => ticksBeforeCancel rest + 1

/-- The start times of successive daemon cycles, modelled from the documented
semantics of `tokio::time::interval` (used at line 131 of main.rs): the
interval's first deadline is its creation instant, so the first `tick()`
completes immediately, and each later deadline is the previous one plus the
period. Cycle bodies are instantaneous in this time model. A `cancelled`
event, including one arriving before the first tick, stops the loop with no
further cycle. -/
def daemonCycleStartsAux (period : Nat) : List LoopEvent → Nat → List Nat
  | [], _ => []
  | .cancelled :: _, _ => []
  | .tick :: rest, deadline => deadline :: daemonCycleStartsAux period rest (deadline + period)

/-- Start times of the cycles of one daemon run, counted from the creation of
the interval at line 131 of main.rs. -/
def daemonCycleStarts (period : Nat) (events : List LoopEvent) : List Nat :=
  daemonCycleStartsAux period events 0

/-- Debug rendering of `std::time::SystemTime` (Unix). -/
def systemTimeDebug (t : SystemTimeM) : String :=
  "SystemTime \x7b tv_sec: " ++ toString t.tv_sec ++ ", tv_nsec: " ++
    toString t.tv_nsec ++ " \x7d"

/-- Debug rendering of an `Option` value. -/
def optionDebug (f : α → String) : Option α → String
  | none => "None"
  | some x => "Some(" ++ f x ++ ")"

/-- `impl Debug for AwsCredentials` (src/credential_provider.rs lines 20-30):
a debug-struct rendering in which each of the three secret fields is replaced
by the fixed string `"********"` and only `expires_after` is rendered from the
value. -/
def awsCredentialsDebug (c : AwsCredentials) : String :=
  "AwsCredentials \x7b access_key_id: \"********\", secret_access_key: \"********\", " ++
    "session_token: \"********\", expires_after: " ++
    optionDebug systemTimeDebug c.expires_after ++ " \x7d"

/-- `impl Display for AwsCredentials` (src/credential_provider.rs lines
31-41): the same redacting debug-struct rendering. -/
def awsCredentialsDisplay (c : AwsCredentials) : String :=
  "AwsCredentials \x7b access_key_id: \"********\", secret_access_key: \"********\", " ++
    "session_token: \"********\", expires_after: " ++
    optionDebug systemTimeDebug c.expires_after ++ " \x7d"

/-- A zone configuration used by the concrete instances below: the scenario of
the specification's testable-properties section (record `home` under
`example.com`, IPv4 only, TTL 300). -/
def homeZone : HostedZoneConfig :=
  { update_frequency_minutes := 5
    zone_name := "example.com"
    record_name := "home"
    ipv4 := true
    ipv6 := false
    region := "us-east-1"
    aws_credentials :=
      { access_key_id := "AKIDEXAMPLE"
        secret_access_key := "SECRETEXAMPLE"
        session_token := none
        expires_after := none }
    ttl_seconds := 300 }

/-- An oracle for the concrete scenario: the provider lists zone `Z123` and
IPv4 discovery answers `203.0.113.7`. -/
def homeOracle : CycleOracle :=
  { list_hosted_zones := .ok ["Z123"]
    ipv4_body := .ok "203.0.113.7"
    ipv6_body := .ok "2001:db8::1"
    upsert := .ok () }

/-- Anatomy of a successfully built change batch: it is the concatenation of
an IPv4 part and an IPv6 part, where each part is a single upsert change of
the corresponding record type when the family is enabled (its resolution
necessarily succeeded) and empty when the family is disabled. -/
theorem build_record_changes_cases (zone : HostedZoneConfig) (o : CycleOracle)
    (changes : List Change) (hB : build_record_changes zone o = .ok changes) :
    ∃ c4 c6, changes = c4 ++ c6 ∧
      ((zone.ipv4 = true ∧ ∃ ip, resolve_address o.ipv4_body = .ok ip ∧
          c4 = [upsert_change zone RrType.A (ipAddrToString ip)]) ∨
        (zone.ipv4 = false ∧ c4 = [])) ∧
      ((zone.ipv6 = true ∧ ∃ ip, resolve_address o.ipv6_body = .ok ip ∧
          c6 = [upsert_change zone RrType.AAAA (ipAddrToString ip)]) ∨
        (zone.ipv6 = false ∧ c6 = [])) := by
  unfold build_record_changes at hB
  cases h4 : zone.ipv4 <;> rw [h4] at hB <;> cases h6 : zone.ipv6 <;> rw [h6] at hB
  · simp only [if_neg Bool.false_ne_true] at hB
    exact ⟨[], [], by simpa using hB.symm, Or.inr ⟨rfl, rfl⟩, Or.inr ⟨rfl, rfl⟩⟩
  · simp only [if_neg Bool.false_ne_true, if_pos rfl] at hB
    cases hr6 : resolve_address o.ipv6_body with
    | error e => rw [hr6] at hB; simp [Except.map] at hB
    | ok ip =>
      rw [hr6] at hB; simp only [Except.map] at hB
      refine ⟨[], [upsert_change zone RrType.AAAA (ipAddrToString ip)], ?_,
        Or.inr ⟨rfl, rfl⟩, Or.inl ⟨rfl, ip, rfl, rfl⟩⟩
      cases hB; rfl
  · simp only [if_neg Bool.false_ne_true, if_pos rfl] at hB
    cases hr4 : resolve_address o.ipv4_body with
    | error e => rw [hr4] at hB; simp [Except.map] at hB
    | ok ip =>
      rw [hr4] at hB; simp only [Except.map] at hB
      refine ⟨[upsert_change zone RrType.A (ipAddrToString ip)], [], ?_,
        Or.inl ⟨rfl, ip, rfl, rfl⟩, Or.inr ⟨rfl, rfl⟩⟩
      cases hB; simp
  · simp only [if_pos rfl] at hB
    cases hr4 : resolve_address o.ipv4_body with
    | error e => rw [hr4] at hB; simp [Except.map] at hB
    | ok ip4 =>
      rw [hr4] at hB; simp only [Except.map] at hB
      cases hr6 : resolve_address o.ipv6_body with
      | error e => rw [hr6] at hB; simp [Except.map] at hB
      | ok ip6 =>
        rw [hr6] at hB; simp only [Except.map] at hB
        refine ⟨[upsert_change zone RrType.A (ipAddrToString ip4)],
          [upsert_change zone RrType.AAAA (ipAddrToString ip6)], ?_,
          Or.inl ⟨rfl, ip4, rfl, rfl⟩, Or.inl ⟨rfl, ip6, rfl, rfl⟩⟩
        cases hB; rfl

/-- If a cycle's change batch was built successfully, any resolution error for
an enabled family is impossible; contrapositively, such an error makes
`build_record_changes` fail. -/
theorem build_record_changes_error (zone : HostedZoneConfig) (o : CycleOracle)
    (h : (zone.ipv4 = true ∧ ∃ e, resolve_address o.ipv4_body = Except.error e) ∨
         (zone.ipv6 = true ∧ ∃ e, resolve_address o.ipv6_body = Except.error e)) :
    ∃ e, build_record_changes zone o = Except.error e := by
  unfold build_record_changes
  rcases h with ⟨h4, e, he⟩ | ⟨h6, e, he⟩
  · refine ⟨e, ?_⟩
    simp [h4, he, Except.map]
  · cases hr4 : (if zone.ipv4 = true then
        (resolve_address o.ipv4_body).map
          (fun ip => [upsert_change zone RrType.A (ipAddrToString ip)])
      else Except.ok []) with
    | error e' => exact ⟨e', rfl⟩
    | ok c4 =>
      refine ⟨e, ?_⟩
      simp [h6, he, Except.map]

/-- C1: if address resolution for any enabled family fails, the cycle returns
an error and no upsert submission reaches the provider; and any submission
that is made carries a record for every enabled family, so no partial batch is
ever submitted. -/
theorem cycle_no_partial_batch (zone : HostedZoneConfig) (o : CycleOracle) :
    (((zone.ipv4 = true ∧ ∃ e, resolve_address o.ipv4_body = Except.error e) ∨
      (zone.ipv6 = true ∧ ∃ e, resolve_address o.ipv6_body = Except.error e)) →
      (∃ e, (update_hosted_zone zone o).1 = Except.error e) ∧
      (update_hosted_zone zone o).2 = none) ∧
    (∀ call, (update_hosted_zone zone o).2 = some call →
      (zone.ipv4 = true →
        ∃ c, c ∈ call.changes ∧ c.resource_record_set.rtype = RrType.A) ∧
      (zone.ipv6 = true →
        ∃ c, c ∈ call.changes ∧ c.resource_record_set.rtype = RrType.AAAA)) := by
  constructor
  · intro h
    obtain ⟨e, hb⟩ := build_record_changes_error zone o h
    cases hL : o.list_hosted_zones with
    | error e' =>
      simp only [update_hosted_zone, hL]
      exact ⟨⟨e', rfl⟩, trivial⟩
    | ok zones =>
      cases hF : find_hosted_zone zones with
      | error e' =>
        simp only [update_hosted_zone, hL, hF]
        exact ⟨⟨e', rfl⟩, trivial⟩
      | ok zid =>
        simp only [update_hosted_zone, hL, hF, hb]
        exact ⟨⟨e, rfl⟩, trivial⟩
  · intro call hcall
    cases hL : o.list_hosted_zones with
    | error e => simp only [update_hosted_zone, hL] at hcall; cases hcall
    | ok zones =>
      cases hF : find_hosted_zone zones with
      | error e => simp only [update_hosted_zone, hL, hF] at hcall; cases hcall
      | ok zid =>
        cases hB : build_record_changes zone o with
        | error e => simp only [update_hosted_zone, hL, hF, hB] at hcall; cases hcall
        | ok changes =>
          simp only [update_hosted_zone, hL, hF, hB] at hcall
          have hchanges : changes = call.changes := by
            cases hE : changes.isEmpty with
            | true => rw [hE] at hcall; cases hcall
            | false =>
              rw [hE] at hcall
              rw [if_neg (by simp)] at hcall
              cases hU : o.upsert with
              | error e =>
                rw [hU] at hcall
                exact congrArg UpsertCall.changes (Option.some.inj hcall)
              | ok u =>
                rw [hU] at hcall
                exact congrArg UpsertCall.changes (Option.some.inj hcall)
          obtain ⟨c4, c6, hsplit, h4, h6⟩ := build_record_changes_cases zone o changes hB
          constructor
          · intro hz4
            rcases h4 with ⟨_, ip, _, hc4⟩ | ⟨hz4f, _⟩
            · refine ⟨upsert_change zone RrType.A (ipAddrToString ip), ?_, rfl⟩
              rw [← hchanges, hsplit, hc4]
              simp
            · rw [hz4] at hz4f; cases hz4f
          · intro hz6
            rcases h6 with ⟨_, ip, _, hc6⟩ | ⟨hz6f, _⟩
            · refine ⟨upsert_change zone RrType.AAAA (ipAddrToString ip), ?_, rfl⟩
              rw [← hchanges, hsplit, hc6]
              simp
            · rw [hz6] at hz6f; cases hz6f

/-- C1 witness: the scenario zone with both families enabled, a failing IPv4
discovery and a working IPv6 discovery submits nothing and errors. -/
theorem cycle_no_partial_batch_witness :
    (∃ e, (update_hosted_zone { homeZone with ipv6 := true }
      { homeOracle with ipv4_body := Except.error (Err.external "v4 down") }).1 =
        Except.error e) ∧
    (update_hosted_zone { homeZone with ipv6 := true }
      { homeOracle with ipv4_body := Except.error (Err.external "v4 down") }).2 = none :=
  (cycle_no_partial_batch { homeZone with ipv6 := true }
      { homeOracle with ipv4_body := Except.error (Err.external "v4 down") }).1
    (Or.inl ⟨rfl, Err.external "v4 down", rfl⟩)

/-- C2 counterexample: the IPv4 branch does not reject a response that is a
well-formed IPv6 address. With IPv4 enabled only and the discovery service
answering `::1`, `str::parse::<IpAddr>` succeeds with an IPv6 value, the cycle
completes without error, and the provider receives an A record whose value is
the IPv6 address `::1`. -/
theorem ipv4_branch_accepts_ipv6 :
    resolve_address (Except.ok "::1") =
      Except.ok (IpAddr.v6 [0, 0, 0, 0, 0, 0, 0, 1]) ∧
    update_hosted_zone homeZone { homeOracle with ipv4_body := Except.ok "::1" } =
      (Except.ok (), some { hosted_zone_id := "Z123",
                            changes := [upsert_change homeZone RrType.A "::1"] }) ∧
    (upsert_change homeZone RrType.A "::1").resource_record_set.rtype = RrType.A := by
  exact ⟨rfl, rfl, rfl⟩

/-- C2 amended: address discovery errors exactly when the response fails to
parse as a well-formed IP address of either family — the parse at lines 180
and 204 of main.rs is the family-agnostic `IpAddr` parse, so a well-formed
address of the other family is accepted. -/
theorem resolve_address_error_iff (body : String) :
    (∃ e, resolve_address (Except.ok body) = Except.error e) ↔
      parseIpAddr body = none := by
  unfold resolve_address
  cases h : parseIpAddr body with
  | none => simp [h]
  | some ip => simp [h]

/-- The daemon loop never produces an error result — it either is still
running when the event list ends or has finished with `Ok(())` after a
cancellation — and it runs exactly one cycle per tick before the first
cancellation. -/
theorem daemonLoop_never_errors (zone : HostedZoneConfig)
    (oracles : Nat → CycleOracle) :
    ∀ (events : List LoopEvent) (n : Nat),
      ((daemonLoop zone oracles events n).1 = RunResult.running ∨
        (daemonLoop zone oracles events n).1 = RunResult.finished (Except.ok ())) ∧
      (daemonLoop zone oracles events n).2.length = ticksBeforeCancel events := by
  intro events
  induction events with
  | nil => intro n; exact ⟨Or.inl rfl, rfl⟩
  | cons e rest ih =>
    intro n
    cases e with
    | cancelled => exact ⟨Or.inr rfl, rfl⟩
    | tick =>
      refine ⟨(ih (n + 1)).1, ?_⟩
      simp only [daemonLoop, List.length_cons, ticksBeforeCancel]
      exact congrArg (· + 1) (ih (n + 1)).2

/-- C3: failure handling depends only on the mode flag. In daemon mode (with
a positive update frequency whose period in seconds does not overflow `u64`,
so the interval constructor does not panic in either build profile) no run
ever terminates with an error — the result is `Ok(())` on cancellation or
the loop is still running — and exactly one cycle runs per interval tick, so
no error is retried within a cycle. In one-shot mode the run terminates with
the first (and only) cycle's result, so that cycle's error is the function's
terminal failure. -/
theorem daemon_vs_oneshot_errors (zone : HostedZoneConfig)
    (events : List LoopEvent) (oracles : Nat → CycleOracle)
    (hfreq : 0 < zone.update_frequency_minutes)
    (hbound : 60 * zone.update_frequency_minutes < 2 ^ 64) :
    ((daemon_update_zone zone true events oracles).1 = RunResult.running ∨
      (daemon_update_zone zone true events oracles).1 =
        RunResult.finished (Except.ok ())) ∧
    (daemon_update_zone zone true events oracles).2.length =
      ticksBeforeCancel events ∧
    (daemon_update_zone zone false events oracles).1 =
      RunResult.finished (update_hosted_zone zone (oracles 0)).1 := by
  have hz : ¬ (60 * zone.update_frequency_minutes) % 2 ^ 64 = 0 := by
    rw [Nat.mod_eq_of_lt hbound]
    omega
  have hd : daemon_update_zone zone true events oracles =
      daemonLoop zone oracles events 0 := by
    unfold daemon_update_zone
    rw [if_neg (by simp), if_neg hz]
  have hloop := daemonLoop_never_errors zone oracles events 0
  refine ⟨by rw [hd]; exact hloop.1, by rw [hd]; exact hloop.2, ?_⟩
  cases hU : (update_hosted_zone zone (oracles 0)).1 with
  | error e => simp [daemon_update_zone, hU]
  | ok u => simp [daemon_update_zone, hU]

/-- C3 witness: with every cycle failing on an empty hosted-zone list, a
daemon run over two ticks and a cancellation finishes with `Ok(())` after
exactly two cycles, while the one-shot run returns the cycle's error. -/
theorem daemon_vs_oneshot_errors_witness :
    ((daemon_update_zone homeZone true
        [LoopEvent.tick, LoopEvent.tick, LoopEvent.cancelled]
        (fun _ => { homeOracle with list_hosted_zones := Except.ok [] })).1 =
          RunResult.running ∨
      (daemon_update_zone homeZone true
        [LoopEvent.tick, LoopEvent.tick, LoopEvent.cancelled]
        (fun _ => { homeOracle with list_hosted_zones := Except.ok [] })).1 =
          RunResult.finished (Except.ok ())) ∧
    (daemon_update_zone homeZone true
      [LoopEvent.tick, LoopEvent.tick, LoopEvent.cancelled]
      (fun _ => { homeOracle with list_hosted_zones := Except.ok [] })).2.length =
        ticksBeforeCancel [LoopEvent.tick, LoopEvent.tick, LoopEvent.cancelled] ∧
    (daemon_update_zone homeZone false
      [LoopEvent.tick, LoopEvent.tick, LoopEvent.cancelled]
      (fun _ => { homeOracle with list_hosted_zones := Except.ok [] })).1 =
        RunResult.finished (update_hosted_zone homeZone
          { homeOracle with list_hosted_zones := Except.ok [] }).1 :=
  daemon_vs_oneshot_errors homeZone
    [LoopEvent.tick, LoopEvent.tick, LoopEvent.cancelled]
    (fun _ => { homeOracle with list_hosted_zones := Except.ok [] })
    (by decide) (by decide)

/-- C4: with both address families disabled a cycle builds an empty change
list and performs no upsert submission; and in general, once the zone lookup
and batch construction succeed, the upsert call is skipped exactly when the
change list is empty. -/
theorem disabled_families_no_upsert (zone : HostedZoneConfig) (o : CycleOracle)
    (h4 : zone.ipv4 = false) (h6 : zone.ipv6 = false) :
    (build_record_changes zone o = Except.ok [] ∧
      (update_hosted_zone zone o).2 = none) ∧
    ∀ (zone' : HostedZoneConfig) (o' : CycleOracle) (zones : List String)
      (zid : String) (changes : List Change),
      o'.list_hosted_zones = Except.ok zones →
      find_hosted_zone zones = Except.ok zid →
      build_record_changes zone' o' = Except.ok changes →
      ((update_hosted_zone zone' o').2 = none ↔ changes = []) := by
  have hskip : ∀ (zone' : HostedZoneConfig) (o' : CycleOracle)
      (zones : List String) (zid : String) (changes : List Change),
      o'.list_hosted_zones = Except.ok zones →
      find_hosted_zone zones = Except.ok zid →
      build_record_changes zone' o' = Except.ok changes →
      ((update_hosted_zone zone' o').2 = none ↔ changes = []) := by
    intro zone' o' zones zid changes hL hF hB
    simp only [update_hosted_zone, hL, hF, hB]
    cases hE : changes.isEmpty with
    | true =>
      simpa using List.isEmpty_iff.mp hE
    | false =>
      rw [if_neg (by simp)]
      have hne : changes ≠ [] := by
        intro hnil
        rw [hnil] at hE
        cases hE
      cases hU : o'.upsert with
      | error e => simpa using hne
      | ok u => simpa using hne
  refine ⟨?_, hskip⟩
  have hB : build_record_changes zone o = Except.ok [] := by
    simp [build_record_changes, h4, h6]
  refine ⟨hB, ?_⟩
  cases hL : o.list_hosted_zones with
  | error e => simp [update_hosted_zone, hL]
  | ok zones =>
    cases hF : find_hosted_zone zones with
    | error e => simp [update_hosted_zone, hL, hF]
    | ok zid => exact (hskip zone o zones zid [] hL hF hB).mpr rfl

/-- C4 witness: the scenario zone with both families disabled and a healthy
provider builds no changes and submits nothing. -/
theorem disabled_families_no_upsert_witness :
    build_record_changes { homeZone with ipv4 := false } homeOracle =
      Except.ok [] ∧
    (update_hosted_zone { homeZone with ipv4 := false } homeOracle).2 = none :=
  (disabled_families_no_upsert { homeZone with ipv4 := false } homeOracle
    rfl rfl).1

/-- C5: the concrete scenario of the specification. For the zone
`record_name = "home"`, `hosted_zone_name = "example.com"`, IPv4 enabled,
IPv6 disabled, TTL 300, with IPv4 discovery answering `203.0.113.7` and the
provider listing zone `Z123` first, the cycle succeeds and submits to `Z123`
exactly one change: an Upsert of the A record `home.example.com` with value
`203.0.113.7` and TTL 300. -/
theorem concrete_scenario :
    update_hosted_zone homeZone homeOracle =
      (Except.ok (),
        some { hosted_zone_id := "Z123",
               changes := [{ action := ChangeAction.Upsert,
                             resource_record_set :=
                               { name := "home.example.com",
                                 rtype := RrType.A,
                                 ttl := 300,
                                 value := "203.0.113.7" } }] }) ∧
    homeZone.record_name ++ "." ++ homeZone.zone_name = "home.example.com" := by
  exact ⟨rfl, rfl⟩

/-- C6: hosted-zone lookup takes the first zone of the provider's match list
— any upsert submission of the cycle goes to that first zone's id — and an
empty match list fails the cycle with the distinguished
`"No hosted zone found."` error, returned as an ordinary cycle error. -/
theorem first_zone_or_not_found (zone : HostedZoneConfig) (o : CycleOracle)
    (z : String) (zs : List String) :
    find_hosted_zone [] = Except.error (Err.anyhowMsg "No hosted zone found.") ∧
    find_hosted_zone (z :: zs) = Except.ok z ∧
    (o.list_hosted_zones = Except.ok [] →
      update_hosted_zone zone o =
        (Except.error (Err.anyhowMsg "No hosted zone found."), none)) ∧
    (o.list_hosted_zones = Except.ok (z :: zs) →
      ∀ call, (update_hosted_zone zone o).2 = some call →
        call.hosted_zone_id = z) := by
  refine ⟨rfl, rfl, ?_, ?_⟩
  · intro hL
    simp [update_hosted_zone, hL, find_hosted_zone]
  · intro hL call hcall
    simp only [update_hosted_zone, hL, find_hosted_zone] at hcall
    cases hB : build_record_changes zone o with
    | error e => rw [hB] at hcall; cases hcall
    | ok changes =>
      simp only [hB] at hcall
      cases hE : changes.isEmpty with
      | true => rw [hE] at hcall; cases hcall
      | false =>
        rw [hE] at hcall
        rw [if_neg (by simp)] at hcall
        cases hU : o.upsert with
        | error e =>
          rw [hU] at hcall
          exact (congrArg UpsertCall.hosted_zone_id (Option.some.inj hcall)).symm
        | ok u =>
          rw [hU] at hcall
          exact (congrArg UpsertCall.hosted_zone_id (Option.some.inj hcall)).symm

/-- C6 witness: with the provider listing no zone, the scenario cycle fails
with the "No hosted zone found." error and submits nothing. -/
theorem first_zone_or_not_found_witness :
    update_hosted_zone homeZone
      { homeOracle with list_hosted_zones := Except.ok [] } =
      (Except.error (Err.anyhowMsg "No hosted zone found."), none) :=
  (first_zone_or_not_found homeZone
    { homeOracle with list_hosted_zones := Except.ok [] } "Z" []).2.2.1 rfl

/-- C7: a cycle's batch is a function of the zone configuration and the
discovery responses alone — two cycles whose oracles agree on the hosted-zone
listing and on both discovery responses build the same change list and submit
the same upsert call (if any) — and within any successfully built batch the
record types appear in the deterministic order IPv4 before IPv6. -/
theorem reconcile_deterministic (zone : HostedZoneConfig) (o o' : CycleOracle)
    (hL : o.list_hosted_zones = o'.list_hosted_zones)
    (h4 : o.ipv4_body = o'.ipv4_body) (h6 : o.ipv6_body = o'.ipv6_body) :
    (build_record_changes zone o = build_record_changes zone o' ∧
      (update_hosted_zone zone o).2 = (update_hosted_zone zone o').2) ∧
    ∀ changes, build_record_changes zone o = Except.ok changes →
      changes.map (fun c => c.resource_record_set.rtype) ∈
        ([[], [RrType.A], [RrType.AAAA], [RrType.A, RrType.AAAA]] :
          List (List RrType)) := by
  have hbuild : build_record_changes zone o = build_record_changes zone o' := by
    unfold build_record_changes
    rw [h4, h6]
  refine ⟨⟨hbuild, ?_⟩, ?_⟩
  · cases hL' : o'.list_hosted_zones with
    | error e => simp [update_hosted_zone, hL.trans hL', hL']
    | ok zones =>
      cases hF : find_hosted_zone zones with
      | error e => simp [update_hosted_zone, hL.trans hL', hL', hF]
      | ok zid =>
        cases hB : build_record_changes zone o' with
        | error e =>
          simp [update_hosted_zone, hL.trans hL', hL', hF, hbuild.trans hB, hB]
        | ok changes =>
          simp only [update_hosted_zone, hL.trans hL', hL', hF,
            hbuild.trans hB, hB]
          cases hE : changes.isEmpty with
          | true => rfl
          | false =>
            rw [if_neg (by simp)]
            cases o.upsert <;> cases o'.upsert <;> rfl
  · intro changes hB
    obtain ⟨c4, c6, hsplit, hc4, hc6⟩ :=
      build_record_changes_cases zone o changes hB
    rcases hc4 with ⟨_, ip4, _, h4eq⟩ | ⟨_, h4eq⟩ <;>
      rcases hc6 with ⟨_, ip6, _, h6eq⟩ | ⟨_, h6eq⟩ <;>
      rw [hsplit, h4eq, h6eq] <;> simp [upsert_change]

/-- C7 witness: the scenario cycle and a second cycle with identical discovery
responses but a different provider-side upsert outcome submit the same call. -/
theorem reconcile_deterministic_witness :
    (update_hosted_zone homeZone homeOracle).2 =
      (update_hosted_zone homeZone
        { homeOracle with upsert := Except.error (Err.external "throttled") }).2 :=
  ((reconcile_deterministic homeZone homeOracle
    { homeOracle with upsert := Except.error (Err.external "throttled") }
    rfl rfl rfl).1).2

/-- C8: both the Debug and the Display rendering of credentials are redacting:
any two credential values that agree on the expiry — however they differ in
access key id, secret access key and session token — render to identical
strings, so the three secret fields never reach the formatted output. -/
theorem credentials_redacted (c1 c2 : AwsCredentials)
    (h : c1.expires_after = c2.expires_after) :
    awsCredentialsDebug c1 = awsCredentialsDebug c2 ∧
    awsCredentialsDisplay c1 = awsCredentialsDisplay c2 := by
  unfold awsCredentialsDebug awsCredentialsDisplay
  rw [h]
  exact ⟨rfl, rfl⟩

/-- C8 witness: two credential values differing in all three secret fields
render identically under Debug and Display. -/
theorem credentials_redacted_witness :
    awsCredentialsDebug
        { access_key_id := "AKIAXXXX", secret_access_key := "s3cr3t",
          session_token := some "tok-1",
          expires_after := some { tv_sec := 1700000000, tv_nsec := 0 } } =
      awsCredentialsDebug
        { access_key_id := "AKIAYYYY", secret_access_key := "hunter2",
          session_token := none,
          expires_after := some { tv_sec := 1700000000, tv_nsec := 0 } } ∧
    awsCredentialsDisplay
        { access_key_id := "AKIAXXXX", secret_access_key := "s3cr3t",
          session_token := some "tok-1",
          expires_after := some { tv_sec := 1700000000, tv_nsec := 0 } } =
      awsCredentialsDisplay
        { access_key_id := "AKIAYYYY", secret_access_key := "hunter2",
          session_token := none,
          expires_after := some { tv_sec := 1700000000, tv_nsec := 0 } } :=
  credentials_redacted
    { access_key_id := "AKIAXXXX", secret_access_key := "s3cr3t",
      session_token := some "tok-1",
      expires_after := some { tv_sec := 1700000000, tv_nsec := 0 } }
    { access_key_id := "AKIAYYYY", secret_access_key := "hunter2",
      session_token := none,
      expires_after := some { tv_sec := 1700000000, tv_nsec := 0 } }
    rfl

/-- The command line of a daemon run configured with a zero update frequency:
clap parses `--update-frequency-minutes 0` without complaint, since the only
constraint on the flag is the `u64` range. -/
def zeroFreqArgs : Args :=
  { daemon := true
    update_frequency_minutes := 0
    zone_name := "example.com"
    record_name := "home"
    ipv4 := true
    ipv6 := false
    region := "us-east-1"
    aws_access_key_id := "AKIDEXAMPLE"
    aws_secret_access_key := "SECRETEXAMPLE"
    aws_session_token := none
    ttl_seconds := 300 }

/-- C9 counterexample: a zero update frequency in daemon mode is not rejected
as a startup-time configuration error. `main` performs no validation — the
zero value flows through `mkHostedZoneConfig` into `daemon_update_zone`, which
is reached and aborts by the tokio interval constructor's panic (its period
assertion), with no cycle having run: a crash at the interval constructor, not
a configuration rejection. -/
theorem freq_zero_crashes_not_rejected :
    (mkHostedZoneConfig zeroFreqArgs).update_frequency_minutes = 0 ∧
    daemon_update_zone (mkHostedZoneConfig zeroFreqArgs) zeroFreqArgs.daemon
        [LoopEvent.tick] (fun _ => homeOracle) =
      (RunResult.panicked "interval period must be non-zero", []) :=
  ⟨rfl, rfl⟩

/-- C9 amended: in daemon mode a zero update frequency is accepted by
configuration handling and aborts the process by a panic when the interval
timer is constructed, before the loop starts and before any cycle runs,
whatever the events and oracles. -/
theorem freq_zero_panics (zone : HostedZoneConfig) (events : List LoopEvent)
    (oracles : Nat → CycleOracle) (h : zone.update_frequency_minutes = 0) :
    daemon_update_zone zone true events oracles =
      (RunResult.panicked "interval period must be non-zero", []) := by
  simp [daemon_update_zone, h]

/-- C9 amended witness: the zero-frequency daemon configuration panics with no
cycle run. -/
theorem freq_zero_panics_witness :
    daemon_update_zone (mkHostedZoneConfig zeroFreqArgs) true
        [LoopEvent.tick, LoopEvent.tick] (fun _ => homeOracle) =
      (RunResult.panicked "interval period must be non-zero", []) :=
  freq_zero_panics (mkHostedZoneConfig zeroFreqArgs)
    [LoopEvent.tick, LoopEvent.tick] (fun _ => homeOracle) rfl

/-- Closed form of the timed daemon loop: starting with deadline `d`, the
cycles before the first cancellation start at `d`, `d + period`,
`d + 2 * period`, and so on. -/
theorem daemonCycleStartsAux_closed (period : Nat) :
    ∀ (events : List LoopEvent) (d : Nat),
      daemonCycleStartsAux period events d =
        (List.range (ticksBeforeCancel events)).map (fun i => d + i * period) := by
  intro events
  induction events with
  | nil => intro d; rfl
  | cons e rest ih =>
    intro d
    cases e with
    | cancelled => rfl
    | tick =>
      have h1 : daemonCycleStartsAux period (LoopEvent.tick :: rest) d =
          d :: daemonCycleStartsAux period rest (d + period) := rfl
      have h2 : ticksBeforeCancel (LoopEvent.tick :: rest) =
          ticksBeforeCancel rest + 1 := rfl
      rw [h1, h2, ih (d + period), List.range_succ_eq_map, List.map_cons,
        List.map_map]
      refine congrArg₂ List.cons (by simp) (List.map_congr_left ?_)
      intro i _
      simp only [Function.comp_apply]
      rw [Nat.succ_eq_add_one]
      ring

/-- C10: in daemon mode the first cycle starts at the instant the loop starts
— the interval's first tick completes immediately — and every later cycle
starts one full period after the previous one: the cycle start times are
exactly `0, period, 2 * period, ...` for the ticks before the first
cancellation; a cancellation already signalled at the first `select!` ends the
loop with no cycle at all. -/
theorem first_cycle_immediate (period : Nat) (events : List LoopEvent) :
    daemonCycleStarts period events =
      (List.range (ticksBeforeCancel events)).map (fun i => i * period) ∧
    (events.head? = some LoopEvent.cancelled →
      daemonCycleStarts period events = []) := by
  constructor
  · have h := daemonCycleStartsAux_closed period events 0
    simpa [daemonCycleStarts] using h
  · intro h
    cases events with
    | nil => cases h
    | cons e rest =>
      cases e with
      | tick => simp at h
      | cancelled => rfl

/-- C10 witness: with period 300 seconds and three uncancelled ticks the
cycles start at 0, 300 and 600 seconds. -/
theorem first_cycle_immediate_witness :
    daemonCycleStarts 300 [LoopEvent.tick, LoopEvent.tick, LoopEvent.tick] =
      [0, 300, 600] := by
  rw [(first_cycle_immediate 300
    [LoopEvent.tick, LoopEvent.tick, LoopEvent.tick]).1]
  rfl
